import Mathlib

/-!
Shallow embedding of the `mrsc` crate (src/lib.rs): a multi-producer /
single-consumer request-response primitive built over `std::sync::mpsc`.

The Rust code is a thin wrapper over mpsc channels:

* `Server<T, R> { tx: Sender<Request<T,R>>, rx: Receiver<Request<T,R>> }`
* `Channel<T, R> { tx: Sender<Request<T,R>> }` — a clone of the server's tx
* `Request<T, R> { tx: mpsc::Sender<R>, payload: T }`
* `EmptyRequest<R> { tx: mpsc::Sender<R> }`
* `Response<R> { rx: mpsc::Receiver<R> }`

The embedding makes the shared state explicit.  An mpsc channel is a FIFO
queue together with the number of live `Sender` handles and whether the
`Receiver` is still alive; `std::sync::mpsc` semantics are:

* `send` succeeds iff the receiver is alive, otherwise it returns
  `SendError(v)` carrying the undelivered value;
* `recv` dequeues the head; on an empty queue it disconnects iff every
  sender handle has been dropped, otherwise the calling thread blocks;
* `try_recv` / `recv_timeout` are the non-blocking / bounded variants,
  returning `Empty` / `Timeout` instead of blocking.

A `World` carries the shared request queue and all one-shot reply channels
(one per submission, keyed by a freshly minted id); every library operation
is a function from a `World` (plus the handle it is invoked on) to a result
paired with the next `World`.  The request queue's sender count is
`channels + 1`: one handle per live `Channel` clone plus the `tx` field the
`Server` itself holds (lib.rs, struct `Server`), which exists as long as
the `Server` does.
-/

/-- An mpsc channel endpoint state: pending FIFO queue, number of live
`Sender` handles, and whether the `Receiver` is still alive.  Used for the
per-request one-shot reply channels. -/
structure Chan (α : Type) where
  queue : List α
  senders : Nat
  receiverAlive : Bool
  deriving DecidableEq, Repr

/-- A freshly created mpsc channel: empty, one sender, live receiver. -/
def Chan.fresh (α : Type) : Chan α :=
  { queue := [], senders := 1, receiverAlive := true }

/-- mpsc `SendError(v)`: the undelivered value is handed back to the caller. -/
structure SendError (α : Type) where
  val : α
  deriving DecidableEq, Repr

/-- Outcome of a blocking `recv`: a value, a disconnect error, or the
calling thread blocks (the call does not return in one step). -/
inductive RecvOutcome (α : Type) where
  | ok : α → RecvOutcome α
  | disconnected : RecvOutcome α
  | blocked : RecvOutcome α
  deriving DecidableEq, Repr

/-- mpsc `TryRecvError`. -/
inductive TryRecvError where
  | empty
  | disconnected
  deriving DecidableEq, Repr

/-- mpsc `RecvTimeoutError`. -/
inductive RecvTimeoutError where
  | timeout
  | disconnected
  deriving DecidableEq, Repr

/-- `Request<T, R>`: the payload together with the id of its private
one-shot reply channel (the `tx: mpsc::Sender<R>` field). -/
structure Request (T R : Type) where
  tx : Nat
  payload : T
  deriving DecidableEq, Repr

/-- `EmptyRequest<R>`: only the reply capability, the payload detached. -/
structure EmptyRequest (R : Type) where
  tx : Nat
  deriving DecidableEq, Repr

/-- `Response<R>`: the receiving end of the private one-shot reply channel. -/
structure Response (R : Type) where
  rx : Nat
  deriving DecidableEq, Repr

/-- `Channel<T, R>`: a producer handle; all clones share the server's
request queue, so the handle itself carries no data in the model (the
live-clone count lives in the `World`). -/
structure Channel (T R : Type) where
  deriving DecidableEq, Repr

/-- The global state: the server's shared request queue (with `serverAlive`
tracking the `Server`'s `rx`, and `channels` the number of live `Channel`
clones), the one-shot reply channels keyed by id, and the next fresh id. -/
structure World (T R : Type) where
  serverAlive : Bool
  channels : Nat
  reqQueue : List (Request T R)
  replies : Nat → Chan R
  nextId : Nat

/-- Replace the reply channel with id `id`. -/
def World.setReply {T R : Type} (w : World T R) (id : Nat) (c : Chan R) :
    World T R :=
  { w with replies := fun i => if i = id then c else w.replies i }

/-- `Server::new`: a fresh queue, no channels yet, no replies allocated
(unallocated ids map to a dead channel, which is never read). -/
def Server.new (T R : Type) : World T R :=
  { serverAlive := true
    channels := 0
    reqQueue := []
    replies := fun _ => { queue := [], senders := 0, receiverAlive := false }
    nextId := 0 }

/-- `Server::pop`: clone the server's `tx` into a new `Channel`. -/
def Server.pop {T R : Type} (w : World T R) : Channel T R × World T R :=
  (⟨⟩, { w with channels := w.channels + 1 })

/-- Dropping a `Channel` clone releases its sender handle. -/
def Channel.drop {T R : Type} (w : World T R) : World T R :=
  { w with channels := w.channels - 1 }

/-- Dropping the `Server` drops its `rx` (and its internal `tx`): later
sends fail. -/
def Server.drop {T R : Type} (w : World T R) : World T R :=
  { w with serverAlive := false }

/-- `Server::recv`: `self.rx.recv()`.  The request queue's live sender
count is `w.channels + 1` because the `Server` being called on (`&self`)
still holds its own `tx` field. -/
def Server.recv {T R : Type} (w : World T R) :
    RecvOutcome (Request T R) × World T R :=
  match w.reqQueue with
  | r :: rest => (.ok r, { w with reqQueue := rest })
  | [] =>
    if w.channels + 1 = 0 then (.disconnected, w) else (.blocked, w)

/-- `Server::try_recv`: `self.rx.try_recv()`. -/
def Server.tryRecv {T R : Type} (w : World T R) :
    Except TryRecvError (Request T R) × World T R :=
  match w.reqQueue with
  | r :: rest => (.ok r, { w with reqQueue := rest })
  | [] =>
    (.error (if w.channels + 1 = 0 then .disconnected else .empty), w)

/-- `Server::recv_timeout`: `self.rx.recv_timeout(timeout)`, in the case
where no request arrives during the wait (an arrival would be a state
change by another thread, outside a single step). -/
def Server.recvTimeout {T R : Type} (w : World T R) :
    Except RecvTimeoutError (Request T R) × World T R :=
  match w.reqQueue with
  | r :: rest => (.ok r, { w with reqQueue := rest })
  | [] =>
    (.error (if w.channels + 1 = 0 then .disconnected else .timeout), w)

/-- `Channel::req(payload)`: create a fresh one-shot channel, wrap the
payload and the reply sender into a `Request`, send it on the shared
queue.  The send succeeds iff the server's `rx` is alive; on failure the
whole `Request` (payload included) comes back in the `SendError`. -/
def Channel.req {T R : Type} (w : World T R) (payload : T) :
    Except (SendError (Request T R)) (Response R) × World T R :=
  let id := w.nextId
  let requ : Request T R := { tx := id, payload := payload }
  if w.serverAlive then
    (.ok { rx := id },
     { w with
        reqQueue := w.reqQueue ++ [requ]
        replies := fun i => if i = id then Chan.fresh R else w.replies i
        nextId := id + 1 })
  else
    (.error ⟨requ⟩, w)

/-- `Request::get`: a `&self` borrow of the payload. -/
def Request.get {T R : Type} (r : Request T R) : T :=
  r.payload

/-- One observation step of `Request::get` (`&self`): it returns the
payload and leaves the request as it was. -/
def Request.getStep {T R : Type} (r : Request T R) : T × Request T R :=
  (r.payload, r)

/-- Iterate `Request::get` observations. -/
def Request.getIter {T R : Type} : Nat → Request T R → Request T R
  | 0, r => r
  | n + 1, r => Request.getIter n r.getStep.2

/-- `Request::take`: split into the reply capability and the payload. -/
def Request.take {T R : Type} (r : Request T R) : EmptyRequest R × T :=
  ({ tx := r.tx }, r.payload)

/-- `Request::reply(response)`: `self.tx.send(response)`, consuming the
request (its sender handle is released either way).  On failure the
undelivered value comes back in the `SendError`. -/
def Request.reply {T R : Type} (w : World T R) (r : Request T R) (v : R) :
    Except (SendError R) Unit × World T R :=
  let c := w.replies r.tx
  if c.receiverAlive then
    (.ok (),
     w.setReply r.tx { c with queue := c.queue ++ [v], senders := c.senders - 1 })
  else
    (.error ⟨v⟩, w.setReply r.tx { c with senders := c.senders - 1 })

/-- Dropping a `Request` without replying releases its sender handle. -/
def Request.drop {T R : Type} (w : World T R) (r : Request T R) : World T R :=
  let c := w.replies r.tx
  w.setReply r.tx { c with senders := c.senders - 1 }

/-- `EmptyRequest::reply(response)`: same body as `Request::reply`. -/
def EmptyRequest.reply {T R : Type} (w : World T R) (er : EmptyRequest R)
    (v : R) : Except (SendError R) Unit × World T R :=
  let c := w.replies er.tx
  if c.receiverAlive then
    (.ok (),
     w.setReply er.tx { c with queue := c.queue ++ [v], senders := c.senders - 1 })
  else
    (.error ⟨v⟩, w.setReply er.tx { c with senders := c.senders - 1 })

/-- `Response::recv`: `self.rx.recv()`, consuming the `Response` (its
receiver is dropped once the call returns). -/
def Response.recv {T R : Type} (w : World T R) (resp : Response R) :
    RecvOutcome R × World T R :=
  let c := w.replies resp.rx
  match c.queue with
  | v :: rest =>
    (.ok v, w.setReply resp.rx { c with queue := rest, receiverAlive := false })
  | [] =>
    if c.senders = 0 then
      (.disconnected, w.setReply resp.rx { c with receiverAlive := false })
    else
      (.blocked, w)

/-- `Response::try_recv`: `self.rx.try_recv()` (`&self`: the `Response`
survives the call). -/
def Response.tryRecv {T R : Type} (w : World T R) (resp : Response R) :
    Except TryRecvError R × World T R :=
  let c := w.replies resp.rx
  match c.queue with
  | v :: rest => (.ok v, w.setReply resp.rx { c with queue := rest })
  | [] =>
    (.error (if c.senders = 0 then .disconnected else .empty), w)

/-- `Response::recv_timeout`: `self.rx.recv_timeout(timeout)` (`&self`),
in the case where no reply arrives during the wait. -/
def Response.recvTimeout {T R : Type} (w : World T R) (resp : Response R) :
    Except RecvTimeoutError R × World T R :=
  let c := w.replies resp.rx
  match c.queue with
  | v :: rest => (.ok v, w.setReply resp.rx { c with queue := rest })
  | [] =>
    (.error (if c.senders = 0 then .disconnected else .timeout), w)

/-- Dropping a `Response` before receiving drops its receiver. -/
def Response.drop {T R : Type} (w : World T R) (resp : Response R) :
    World T R :=
  let c := w.replies resp.rx
  w.setReply resp.rx { c with receiverAlive := false }

/-- Submit a whole list of payloads in order on the same channel. -/
def Channel.reqAll {T R : Type} (w : World T R) : List T → World T R
  | [] => w
  | p :: ps => Channel.reqAll (Channel.req w p).2 ps

/-- Dequeue `n` requests in order with `Server::recv`, stopping early on
any failure. -/
def Server.drain {T R : Type} (w : World T R) : Nat → List (Request T R)
  | 0 => []
  | n + 1 =>
    match Server.recv w with
    | (.ok r, w') => r :: Server.drain w' n
    | _ => []

/-- Poll a `Response` `n` times with `try_recv`, keeping only the world. -/
def Response.pollIter {T R : Type} (w : World T R) (resp : Response R) :
    Nat → World T R
  | 0 => w
  | n + 1 => Response.pollIter (Response.tryRecv w resp).2 resp n

/-- True iff a blocking-receive outcome is the disconnect error. -/
def RecvOutcome.isDisconnected {α : Type} : RecvOutcome α → Bool
  | .disconnected => true
  | _ => false

/-- True iff a `try_recv` result is the disconnect error. -/
def tryResultDisconnected {α : Type} : Except TryRecvError α → Bool
  | .error .disconnected => true
  | _ => false

/-- True iff a `recv_timeout` result is the disconnect error. -/
def timeoutResultDisconnected {α : Type} : Except RecvTimeoutError α → Bool
  | .error .disconnected => true
  | _ => false

/-!
## Claim theorems
-/

/-- C1: for every payload `p`, `Channel::req(p)` on a live server with an
empty queue succeeds with the paired `Response`, and a following
`Server::recv` returns a `Request` whose `get` is exactly `p`. -/
theorem req_then_recv_get {T R : Type} (w : World T R) (p : T)
    (hq : w.reqQueue = []) (ha : w.serverAlive = true) :
    (Channel.req w p).1 = Except.ok { rx := w.nextId } ∧
    (Server.recv (Channel.req w p).2).1 =
      RecvOutcome.ok { tx := w.nextId, payload := p } ∧
    Request.get ({ tx := w.nextId, payload := p } : Request T R) = p := by
  refine ⟨?_, ?_, rfl⟩
  · simp [Channel.req, ha]
  · simp [Channel.req, Server.recv, ha, hq]

/-- Witness for `req_then_recv_get` at the fresh server and payload 123. -/
theorem req_then_recv_get_witness :
    (Channel.req (Server.new Nat Nat) 123).1 = Except.ok { rx := 0 } ∧
    (Server.recv (Channel.req (Server.new Nat Nat) 123).2).1 =
      RecvOutcome.ok { tx := 0, payload := 123 } ∧
    Request.get ({ tx := 0, payload := 123 } : Request Nat Nat) = 123 :=
  req_then_recv_get (Server.new Nat Nat) 123 rfl rfl

/-- C3: `Request::take` splits into exactly the payload `get` would have
returned and an `EmptyRequest` carrying the same reply capability, whose
`reply` agrees with `Request::reply` on every world and value (the same
success result and the same failure condition). -/
theorem take_splits_and_preserves_reply {T R : Type} (r : Request T R) :
    r.take.2 = r.get ∧
    r.take.1 = ({ tx := r.tx } : EmptyRequest R) ∧
    ∀ (w : World T R) (v : R),
      EmptyRequest.reply w r.take.1 v = Request.reply w r v :=
  ⟨rfl, rfl, fun _ _ => rfl⟩

/-- C4: when the server's consuming end has been dropped, `Channel::req(p)`
fails and the error hands back the undelivered `Request` with its payload
still equal to `p`; the world is unchanged, so nothing is lost. -/
theorem req_fails_payload_intact {T R : Type} (w : World T R) (p : T)
    (hd : w.serverAlive = false) :
    Channel.req w p =
      (Except.error ⟨{ tx := w.nextId, payload := p }⟩, w) ∧
    (SendError.val ⟨{ tx := w.nextId, payload := p }⟩ : Request T R).payload
      = p := by
  refine ⟨?_, rfl⟩
  simp [Channel.req, hd]

/-- Witness for `req_fails_payload_intact` after dropping the server. -/
theorem req_fails_payload_intact_witness :
    Channel.req (Server.drop (Server.new Nat Nat)) 7 =
      (Except.error ⟨{ tx := 0, payload := 7 }⟩,
        Server.drop (Server.new Nat Nat)) ∧
    (SendError.val ⟨{ tx := 0, payload := 7 }⟩ : Request Nat Nat).payload
      = 7 :=
  req_fails_payload_intact (Server.drop (Server.new Nat Nat)) 7 rfl

/-- C7: `Request::get` is read-only: any number of `get` observations
leave the request unchanged, keep returning the same payload, and leave
`take` and `reply` behaving exactly as on the original request. -/
theorem get_is_readonly {T R : Type} (n : Nat) (r : Request T R) :
    Request.getIter n r = r ∧
    (Request.getIter n r).get = r.get ∧
    (Request.getIter n r).take = r.take ∧
    ∀ (w : World T R) (v : R),
      Request.reply w (Request.getIter n r) v = Request.reply w r v := by
  have h : Request.getIter n r = r := by
    induction n with
    | zero => rfl
    | succ k ih => exact ih
  exact ⟨h, by rw [h], by rw [h], fun w v => by rw [h]⟩

/-- C10: when the paired `Response` has been dropped, both
`Request::reply(v)` and `EmptyRequest::reply(v)` fail with an error that
carries `v` itself back to the caller. -/
theorem reply_fails_value_returned {T R : Type} (w : World T R)
    (r : Request T R) (v : R)
    (hd : (w.replies r.tx).receiverAlive = false) :
    (Request.reply w r v).1 = Except.error ⟨v⟩ ∧
    (EmptyRequest.reply w r.take.1 v).1 = Except.error ⟨v⟩ ∧
    (SendError.val (⟨v⟩ : SendError R)) = v := by
  refine ⟨?_, ?_, rfl⟩ <;>
    simp [Request.reply, EmptyRequest.reply, Request.take, hd]

/-- The concrete world reached by: new server, pop a channel, submit 5,
server receives the request, then the caller drops its `Response`. -/
def droppedRespWorld : World Nat Nat :=
  Response.drop
    (Server.recv (Channel.req (Server.pop (Server.new Nat Nat)).2 5).2).2
    { rx := 0 }

/-- Witness for `reply_fails_value_returned` after the `Response` for
request id 0 was dropped. -/
theorem reply_fails_value_returned_witness :
    (droppedRespWorld.replies
        ({ tx := 0, payload := 5 } : Request Nat Nat).tx).receiverAlive
      = false ∧
    ((Request.reply droppedRespWorld
        ({ tx := 0, payload := 5 } : Request Nat Nat) 9).1
      = Except.error ⟨9⟩ ∧
    (EmptyRequest.reply droppedRespWorld
        ({ tx := 0, payload := 5 } : Request Nat Nat).take.1 9).1
      = Except.error ⟨9⟩ ∧
    (SendError.val (⟨9⟩ : SendError Nat)) = 9) :=
  ⟨rfl, reply_fails_value_returned droppedRespWorld
    { tx := 0, payload := 5 } 9 rfl⟩

/-- C2: after submitting `p` on a live server with an empty queue and
receiving the request, replying `rv` — either directly on the `Request`,
or on the `EmptyRequest` obtained from `take` — succeeds, and `recv` on
the paired `Response` then yields exactly `rv`. -/
theorem reply_then_response_recv {T R : Type} (w : World T R) (p : T)
    (rv : R) (hq : w.reqQueue = []) (ha : w.serverAlive = true) :
    (Request.reply (Server.recv (Channel.req w p).2).2
        ({ tx := w.nextId, payload := p } : Request T R) rv).1
      = Except.ok () ∧
    (Response.recv
        (Request.reply (Server.recv (Channel.req w p).2).2
          ({ tx := w.nextId, payload := p } : Request T R) rv).2
        { rx := w.nextId }).1 = RecvOutcome.ok rv ∧
    (EmptyRequest.reply (Server.recv (Channel.req w p).2).2
        ({ tx := w.nextId, payload := p } : Request T R).take.1 rv).1
      = Except.ok () ∧
    (Response.recv
        (EmptyRequest.reply (Server.recv (Channel.req w p).2).2
          ({ tx := w.nextId, payload := p } : Request T R).take.1 rv).2
        { rx := w.nextId }).1 = RecvOutcome.ok rv := by
  refine ⟨?_, ?_, ?_, ?_⟩ <;>
    simp [Channel.req, Server.recv, Request.reply, EmptyRequest.reply,
      Request.take, Response.recv, World.setReply, Chan.fresh, hq, ha]

/-- Witness for `reply_then_response_recv` at the fresh server,
payload 123 and reply 42. -/
theorem reply_then_response_recv_witness :
    (Request.reply (Server.recv (Channel.req (Server.new Nat Nat) 123).2).2
        ({ tx := 0, payload := 123 } : Request Nat Nat) 42).1
      = Except.ok () ∧
    (Response.recv
        (Request.reply (Server.recv (Channel.req (Server.new Nat Nat) 123).2).2
          ({ tx := 0, payload := 123 } : Request Nat Nat) 42).2
        { rx := 0 }).1 = RecvOutcome.ok 42 ∧
    (EmptyRequest.reply (Server.recv (Channel.req (Server.new Nat Nat) 123).2).2
        ({ tx := 0, payload := 123 } : Request Nat Nat).take.1 42).1
      = Except.ok () ∧
    (Response.recv
        (EmptyRequest.reply
          (Server.recv (Channel.req (Server.new Nat Nat) 123).2).2
          ({ tx := 0, payload := 123 } : Request Nat Nat).take.1 42).2
        { rx := 0 }).1 = RecvOutcome.ok 42 :=
  reply_then_response_recv (Server.new Nat Nat) 123 42 rfl rfl

/-- C5 counterexample: pop one channel from a fresh server and drop it —
every `Channel` clone is now dropped and the queue is empty — yet
`Server::recv` blocks instead of resolving with the disconnect error,
because the `Server` still holds its own internal producer handle. -/
theorem server_recv_blocks_after_channels_dropped :
    (Server.recv (Channel.drop (Server.pop (Server.new Nat Nat)).2)).1
      = RecvOutcome.blocked ∧
    RecvOutcome.blocked
      ≠ (RecvOutcome.disconnected : RecvOutcome (Request Nat Nat)) :=
  ⟨rfl, by decide⟩

/-- C5 amended: while the `Server` exists its internal producer handle is
alive, so the shared queue's sender count is `channels + 1 > 0` and no
`Server`-side receive variant can ever resolve with the disconnect error:
the disconnect signal is unreachable through the public API. -/
theorem server_recv_never_disconnects {T R : Type} (w : World T R) :
    (Server.recv w).1.isDisconnected = false ∧
    tryResultDisconnected (Server.tryRecv w).1 = false ∧
    timeoutResultDisconnected (Server.recvTimeout w).1 = false := by
  refine ⟨?_, ?_, ?_⟩ <;>
    cases h : w.reqQueue <;>
      simp [Server.recv, Server.tryRecv, Server.recvTimeout, h,
        Nat.succ_ne_zero, RecvOutcome.isDisconnected,
        tryResultDisconnected, timeoutResultDisconnected]

/-- The concrete world reached by: new server, pop a channel, submit 1,
server receives the request, then the handler drops the `Request`
without replying. -/
def droppedRequestWorld : World Nat Nat :=
  Request.drop
    (Server.recv (Channel.req (Server.pop (Server.new Nat Nat)).2 1).2).2
    { tx := 0, payload := 1 }

/-- C6 counterexample: no reply value was ever produced for request id 0
(its one-shot queue is empty), yet `Response::try_recv` reports the
disconnect error, not the empty signal, because the `Request` was dropped
without replying. -/
theorem try_recv_disconnected_not_empty :
    (Response.tryRecv droppedRequestWorld { rx := 0 }).1
      = Except.error TryRecvError.disconnected ∧
    (droppedRequestWorld.replies 0).queue = [] ∧
    TryRecvError.disconnected ≠ TryRecvError.empty :=
  ⟨rfl, rfl, by decide⟩

/-- C6 amended: `Server::try_recv` reports empty before any submission and
succeeds with the submitted request right after; `Response::try_recv`
reports empty before a reply is produced while the request side is still
live, succeeds with exactly the replied value once it is produced, and
delivers it at most once — a second poll reports disconnect, never the
value again.  (When the producing side was dropped without producing, the
failure is the disconnect signal, not empty.) -/
theorem try_recv_empty_then_value_once {T R : Type} (w : World T R)
    (p : T) (rv : R) (hq : w.reqQueue = []) (ha : w.serverAlive = true) :
    (Server.tryRecv w).1 = Except.error TryRecvError.empty ∧
    (Server.tryRecv (Channel.req w p).2).1
      = Except.ok { tx := w.nextId, payload := p } ∧
    (Response.tryRecv (Server.tryRecv (Channel.req w p).2).2
        { rx := w.nextId }).1 = Except.error TryRecvError.empty ∧
    (Response.tryRecv
        (Request.reply (Server.tryRecv (Channel.req w p).2).2
          ({ tx := w.nextId, payload := p } : Request T R) rv).2
        { rx := w.nextId }).1 = Except.ok rv ∧
    (Response.tryRecv
        (Response.tryRecv
          (Request.reply (Server.tryRecv (Channel.req w p).2).2
            ({ tx := w.nextId, payload := p } : Request T R) rv).2
          { rx := w.nextId }).2
        { rx := w.nextId }).1 = Except.error TryRecvError.disconnected := by
  refine ⟨?_, ?_, ?_, ?_, ?_⟩ <;>
    simp [Channel.req, Server.tryRecv, Request.reply, Response.tryRecv,
      World.setReply, Chan.fresh, hq, ha, Nat.succ_ne_zero]

/-- Witness for `try_recv_empty_then_value_once` at the fresh server,
payload 1 and reply 3. -/
theorem try_recv_empty_then_value_once_witness :
    (Server.tryRecv (Server.new Nat Nat)).1
      = Except.error TryRecvError.empty ∧
    (Server.tryRecv (Channel.req (Server.new Nat Nat) 1).2).1
      = Except.ok { tx := 0, payload := 1 } ∧
    (Response.tryRecv (Server.tryRecv (Channel.req (Server.new Nat Nat) 1).2).2
        { rx := 0 }).1 = Except.error TryRecvError.empty ∧
    (Response.tryRecv
        (Request.reply (Server.tryRecv (Channel.req (Server.new Nat Nat) 1).2).2
          ({ tx := 0, payload := 1 } : Request Nat Nat) 3).2
        { rx := 0 }).1 = Except.ok 3 ∧
    (Response.tryRecv
        (Response.tryRecv
          (Request.reply
            (Server.tryRecv (Channel.req (Server.new Nat Nat) 1).2).2
            ({ tx := 0, payload := 1 } : Request Nat Nat) 3).2
          { rx := 0 }).2
        { rx := 0 }).1 = Except.error TryRecvError.disconnected :=
  try_recv_empty_then_value_once (Server.new Nat Nat) 1 3 rfl rfl

/-- A failed (empty) `try_recv` poll leaves the world as it was, so any
number of them does too. -/
theorem pollIter_of_empty {T R : Type} (w : World T R) (resp : Response R)
    (n : Nat) (hq : (w.replies resp.rx).queue = []) :
    Response.pollIter w resp n = w := by
  induction n with
  | zero => rfl
  | succ k ih =>
    have h2 : (Response.tryRecv w resp).2 = w := by
      simp [Response.tryRecv, hq]
    show Response.pollIter (Response.tryRecv w resp).2 resp k = w
    rw [h2]
    exact ih

/-- C8: while no reply has arrived (and the request side is live),
`Response::try_recv` fails with empty and `Response::recv_timeout` with
timeout, both leaving the world — hence the `Response` — exactly
unchanged; any number of such polls changes nothing, and after the reply
capability delivers `v` a plain `recv` still retrieves it.  Only `recv`
consumes the `Response`: its receiver is dead afterwards. -/
theorem polls_do_not_consume {T R : Type} (w : World T R)
    (resp : Response R) (v : R) (n : Nat)
    (hq : (w.replies resp.rx).queue = [])
    (hs : 0 < (w.replies resp.rx).senders)
    (hra : (w.replies resp.rx).receiverAlive = true) :
    Response.tryRecv w resp = (Except.error TryRecvError.empty, w) ∧
    Response.recvTimeout w resp
      = (Except.error RecvTimeoutError.timeout, w) ∧
    Response.pollIter w resp n = w ∧
    (EmptyRequest.reply w ({ tx := resp.rx } : EmptyRequest R) v).1
      = Except.ok () ∧
    (Response.recv
        (EmptyRequest.reply w ({ tx := resp.rx } : EmptyRequest R) v).2
        resp).1 = RecvOutcome.ok v ∧
    ((Response.recv
        (EmptyRequest.reply w ({ tx := resp.rx } : EmptyRequest R) v).2
        resp).2.replies resp.rx).receiverAlive = false := by
  have hs' : (w.replies resp.rx).senders ≠ 0 := Nat.pos_iff_ne_zero.mp hs
  refine ⟨?_, ?_, pollIter_of_empty w resp n hq, ?_, ?_, ?_⟩ <;>
    simp [Response.tryRecv, Response.recvTimeout, Response.recv,
      EmptyRequest.reply, World.setReply, hq, hra, hs']

/-- The concrete world reached by: new server, pop a channel, submit 9;
the `Response` for id 0 is live, unanswered, its request still pending. -/
def pendingRespWorld : World Nat Nat :=
  (Channel.req (Server.pop (Server.new Nat Nat)).2 9).2

/-- Witness for `polls_do_not_consume` at the pending response, reply 4
and five polls. -/
theorem polls_do_not_consume_witness :
    ((pendingRespWorld.replies (0 : Nat)).queue = ([] : List Nat) ∧
      0 < (pendingRespWorld.replies (0 : Nat)).senders ∧
      (pendingRespWorld.replies (0 : Nat)).receiverAlive = true) ∧
    (Response.tryRecv pendingRespWorld { rx := 0 }
        = (Except.error TryRecvError.empty, pendingRespWorld) ∧
      Response.recvTimeout pendingRespWorld { rx := 0 }
        = (Except.error RecvTimeoutError.timeout, pendingRespWorld) ∧
      Response.pollIter pendingRespWorld { rx := 0 } 5 = pendingRespWorld ∧
      (EmptyRequest.reply pendingRespWorld
          ({ tx := 0 } : EmptyRequest Nat) 4).1 = Except.ok () ∧
      (Response.recv
          (EmptyRequest.reply pendingRespWorld
            ({ tx := 0 } : EmptyRequest Nat) 4).2
          { rx := 0 }).1 = RecvOutcome.ok 4 ∧
      ((Response.recv
          (EmptyRequest.reply pendingRespWorld
            ({ tx := 0 } : EmptyRequest Nat) 4).2
          { rx := 0 }).2.replies (0 : Nat)).receiverAlive = false) :=
  ⟨⟨rfl, by decide, rfl⟩,
    polls_do_not_consume pendingRespWorld { rx := 0 } 4 5
      rfl (by decide) rfl⟩

/-- Submitting a list of payloads appends them, in order, to the shared
queue. -/
theorem reqAll_payloads {T R : Type} (ps : List T) :
    ∀ w : World T R, w.serverAlive = true →
      ((Channel.reqAll w ps).reqQueue).map Request.payload
        = w.reqQueue.map Request.payload ++ ps := by
  induction ps with
  | nil => intro w _; simp [Channel.reqAll]
  | cons p ps ih =>
    intro w ha
    rw [Channel.reqAll]
    rw [ih _ (by simp [Channel.req, ha])]
    simp [Channel.req, ha]

/-- Draining `n` requests with `Server::recv` returns the first `n`
queue entries in queue order. -/
theorem drain_payloads {T R : Type} (n : Nat) :
    ∀ w : World T R, n ≤ w.reqQueue.length →
      (Server.drain w n).map Request.payload
        = (w.reqQueue.map Request.payload).take n := by
  induction n with
  | zero => intro w _; simp [Server.drain]
  | succ k ih =>
    intro w hn
    cases hq : w.reqQueue with
    | nil => rw [hq] at hn; simp at hn
    | cons r rest =>
      have hrecv : Server.recv w = (.ok r, { w with reqQueue := rest }) := by
        simp [Server.recv, hq]
      have hd : Server.drain w (k + 1)
          = r :: Server.drain { w with reqQueue := rest } k := by
        rw [Server.drain, hrecv]
      rw [hd, List.map_cons, List.map_cons, List.take_succ_cons]
      congr 1
      apply ih
      rw [hq] at hn
      exact Nat.le_of_succ_le_succ (by simpa using hn)

/-- C9: submitting the payloads `ps` in order on a live server with an
empty queue and then dequeuing `ps.length` requests with `Server::recv`
returns them in exactly the same order: enqueue order is preserved in
dequeue order. -/
theorem fifo_order {T R : Type} (w : World T R) (ps : List T)
    (hq : w.reqQueue = []) (ha : w.serverAlive = true) :
    (Server.drain (Channel.reqAll w ps) ps.length).map Request.payload
      = ps := by
  have h1 : ((Channel.reqAll w ps).reqQueue).map Request.payload = ps := by
    rw [reqAll_payloads ps w ha, hq]
    simp
  have hlen : ps.length ≤ (Channel.reqAll w ps).reqQueue.length := by
    have h2 := congrArg List.length h1
    simp only [List.length_map] at h2
    omega
  rw [drain_payloads ps.length _ hlen, h1]
  simp

/-- Witness for `fifo_order` at the fresh server and payloads 1, 2, 3. -/
theorem fifo_order_witness :
    (Server.drain (Channel.reqAll (Server.new Nat Nat) [1, 2, 3])
        3).map Request.payload = [1, 2, 3] :=
  fifo_order (Server.new Nat Nat) [1, 2, 3] rfl rfl
